import Mathlib

/-!
Verification of the EDA helper library `src/soporte.py`.

The library works on pandas DataFrames.  We embed a DataFrame as an ordered
list of named, typed columns.  Column kinds mirror the pandas dtypes that the
source code distinguishes:
  * `Dtype.num`      — dtypes matched by `select_dtypes(include = np.number)`
                       (int/float; pandas does not count bool as numeric);
  * `Dtype.obj`      — the object dtype `'O'` (text/labels);
  * `Dtype.bool`     — boolean columns (matched by neither selection);
  * `Dtype.datetime` — datetime columns (matched by neither selection).
Cell values are embedded as an inductive `Value`; numeric cell contents are
rationals (the source computes with floating point; we model the arithmetic
exactly over ℚ, and over ℝ where a square root is required).
-/

inductive Dtype
  | num
  | obj
  | bool
  | datetime
deriving DecidableEq

inductive Value
  | num (q : ℚ)
  | str (s : String)
  | bool (b : Bool)
  | null
deriving DecidableEq

structure Column where
  name : String
  dtype : Dtype
  values : List Value
deriving DecidableEq

instance : Inhabited Column := ⟨⟨"", Dtype.num, []⟩⟩

structure DataFrame where
  cols : List Column
deriving DecidableEq

/-- Embedding of `df.select_dtypes(include = np.number)`: the sub-frame of the
columns whose dtype is numeric, in their original order. -/
def select_dtypes_number (df : DataFrame) : DataFrame :=
  ⟨df.cols.filter (fun c => decide (c.dtype = Dtype.num))⟩

/-- Embedding of `df.select_dtypes(include = 'O')`: the sub-frame of the
columns whose dtype is object, in their original order. -/
def select_dtypes_object (df : DataFrame) : DataFrame :=
  ⟨df.cols.filter (fun c => decide (c.dtype = Dtype.obj))⟩

/-- Embedding of `separar_df` (src/soporte.py:7-22): returns the numeric
sub-frame and the object (categorical) sub-frame. -/
def separar_df (df : DataFrame) : DataFrame × DataFrame :=
  (select_dtypes_number df, select_dtypes_object df)

/-- Names of the columns of a frame, in order (`df.columns`). -/
def DataFrame.names (df : DataFrame) : List String :=
  df.cols.map Column.name

/-- C1: `separar_df` returns two subsets whose column-name sets are disjoint,
whose union is exactly the numeric and categorical (object) columns — columns
of any other kind (bool, datetime) belong to neither subset — and each subset
preserves the original column order (is a subsequence of the column list). -/
theorem separar_df_partition (df : DataFrame) (hnd : df.names.Nodup) :
    (∀ s, s ∈ (separar_df df).1.names → s ∉ (separar_df df).2.names) ∧
    (∀ c ∈ df.cols,
      (c.name ∈ (separar_df df).1.names ∨ c.name ∈ (separar_df df).2.names) ↔
      (c.dtype = Dtype.num ∨ c.dtype = Dtype.obj)) ∧
    (∀ c ∈ df.cols, c.dtype ≠ Dtype.num → c.dtype ≠ Dtype.obj →
      c.name ∉ (separar_df df).1.names ∧ c.name ∉ (separar_df df).2.names) ∧
    (separar_df df).1.cols.Sublist df.cols ∧ (separar_df df).2.cols.Sublist df.cols := by
  have hinj := List.inj_on_of_nodup_map (f := Column.name) hnd
  have hmemN : ∀ s, s ∈ (separar_df df).1.names ↔
      ∃ c, c ∈ df.cols ∧ c.dtype = Dtype.num ∧ c.name = s := by
    intro s
    simp only [separar_df, select_dtypes_number, DataFrame.names, List.mem_map,
      List.mem_filter, decide_eq_true_eq]
    constructor
    · rintro ⟨c, ⟨hc, hd⟩, hn⟩; exact ⟨c, hc, hd, hn⟩
    · rintro ⟨c, hc, hd, hn⟩; exact ⟨c, ⟨hc, hd⟩, hn⟩
  have hmemO : ∀ s, s ∈ (separar_df df).2.names ↔
      ∃ c, c ∈ df.cols ∧ c.dtype = Dtype.obj ∧ c.name = s := by
    intro s
    simp only [separar_df, select_dtypes_object, DataFrame.names, List.mem_map,
      List.mem_filter, decide_eq_true_eq]
    constructor
    · rintro ⟨c, ⟨hc, hd⟩, hn⟩; exact ⟨c, hc, hd, hn⟩
    · rintro ⟨c, hc, hd, hn⟩; exact ⟨c, ⟨hc, hd⟩, hn⟩
  refine ⟨?_, ?_, ?_, ?_, ?_⟩
  · intro s hs1 hs2
    obtain ⟨c₁, hc₁, hd₁, hn₁⟩ := (hmemN s).1 hs1
    obtain ⟨c₂, hc₂, hd₂, hn₂⟩ := (hmemO s).1 hs2
    have : c₁ = c₂ := hinj hc₁ hc₂ (hn₁.trans hn₂.symm)
    rw [this, hd₂] at hd₁
    exact absurd hd₁ (by intro h; cases h)
  · intro c hc
    constructor
    · rintro (hs | hs)
      · obtain ⟨c', hc', hd', hn'⟩ := (hmemN c.name).1 hs
        have : c' = c := hinj hc' hc hn'
        exact Or.inl (this ▸ hd')
      · obtain ⟨c', hc', hd', hn'⟩ := (hmemO c.name).1 hs
        have : c' = c := hinj hc' hc hn'
        exact Or.inr (this ▸ hd')
    · rintro (hd | hd)
      · exact Or.inl ((hmemN c.name).2 ⟨c, hc, hd, rfl⟩)
      · exact Or.inr ((hmemO c.name).2 ⟨c, hc, hd, rfl⟩)
  · intro c hc hnum hobj
    constructor
    · intro hs
      obtain ⟨c', hc', hd', hn'⟩ := (hmemN c.name).1 hs
      exact hnum (hinj hc' hc hn' ▸ hd')
    · intro hs
      obtain ⟨c', hc', hd', hn'⟩ := (hmemO c.name).1 hs
      exact hobj (hinj hc' hc hn' ▸ hd')
  · exact List.filter_sublist _
  · exact List.filter_sublist _

/-- Example frame with one column of each kind, used to instantiate
hypothesis-bearing theorems at a concrete input. -/
def dfMixed : DataFrame :=
  ⟨[⟨"age", Dtype.num, [Value.num 30, Value.num 41]⟩,
    ⟨"city", Dtype.obj, [Value.str "A", Value.str "B"]⟩,
    ⟨"active", Dtype.bool, [Value.bool true, Value.bool false]⟩,
    ⟨"when", Dtype.datetime, [Value.null, Value.null]⟩]⟩

/-- Witness for C1 at the concrete frame `dfMixed`. -/
theorem separar_df_partition_witness :
    (∀ s, s ∈ (separar_df dfMixed).1.names → s ∉ (separar_df dfMixed).2.names) ∧
    (∀ c ∈ dfMixed.cols,
      (c.name ∈ (separar_df dfMixed).1.names ∨ c.name ∈ (separar_df dfMixed).2.names) ↔
      (c.dtype = Dtype.num ∨ c.dtype = Dtype.obj)) ∧
    (∀ c ∈ dfMixed.cols, c.dtype ≠ Dtype.num → c.dtype ≠ Dtype.obj →
      c.name ∉ (separar_df dfMixed).1.names ∧ c.name ∉ (separar_df dfMixed).2.names) ∧
    (separar_df dfMixed).1.cols.Sublist dfMixed.cols ∧
    (separar_df dfMixed).2.cols.Sublist dfMixed.cols :=
  separar_df_partition dfMixed (by decide)

/-!
Grid rendering model.

Every plotting function in the source follows the pattern
    `fig, axes = plt.subplots(nrows = math.ceil(n_plots/2), ncols = 2)`
    `axes = axes.flat`
    a loop drawing one chart into `axes[i]` (or deleting `axes[i]`),
    `if n_plots % 2 != 0: fig.delaxes(axes[-1])`.
We model the flattened axes as a list of cells.  Matplotlib refuses to build a
grid with zero rows (`GridSpec` raises `ValueError` for `nrows <= 0`), which we
model as the error `zeroRows`.  Addressing a cell outside the grid, drawing
into a cell that was already deleted, or deleting a cell twice are modelled as
the error `layoutOverflow` (the spec's internal-invariant violation).
-/

inductive Chart
  | hist (col : String) (bins : ℕ)
  | countBar (col : String) (order : List Value)
  | barMeans (col : String) (vr : String) (groups : List (Value × ℚ))
  | scatter (x : String) (y : String)
  | box (col : String) (colorIdx : ℕ)
deriving DecidableEq

structure Cell where
  chart : Option Chart
  title : Option String
  removed : Bool
deriving DecidableEq

def Cell.empty : Cell := ⟨none, none, false⟩

instance : Inhabited Cell := ⟨Cell.empty⟩

inductive PlotError
  | zeroRows
  | layoutOverflow
  | keyNotFound
  | typeError
deriving DecidableEq

structure Figure where
  nrows : ℕ
  cells : List Cell
deriving DecidableEq

deriving instance DecidableEq for Except

/-- Embedding of drawing a chart into `axes[i]` (seaborn plot call followed by
`set_title`): fails if the index is out of range or the axes were deleted. -/
def drawAt (cells : List Cell) (i : ℕ) (ch : Chart) (t : String) :
    Except PlotError (List Cell) :=
  match cells[i]? with
  | some c =>
      if c.removed then Except.error PlotError.layoutOverflow
      else Except.ok (cells.set i { c with chart := some ch, title := some t })
  | none => Except.error PlotError.layoutOverflow

/-- Embedding of `fig.delaxes(axes[i])`: fails if the index is out of range or
the axes were already deleted. -/
def delaxes (cells : List Cell) (i : ℕ) : Except PlotError (List Cell) :=
  match cells[i]? with
  | some c =>
      if c.removed then Except.error PlotError.layoutOverflow
      else Except.ok (cells.set i { c with removed := true })
  | none => Except.error PlotError.layoutOverflow

/-- What one loop iteration does to its cell: draw a titled chart, or delete
the cell (`relacion_vr_numericas` deletes the response variable's own cell). -/
inductive CellAct
  | draw (ch : Chart) (title : String)
  | del
deriving DecidableEq

def applyAct (a : CellAct) (c : Cell) : Cell :=
  match a with
  | CellAct.draw ch t => { c with chart := some ch, title := some t }
  | CellAct.del => { c with removed := true }

/-- The drawing loop `for i, col in enumerate(cols): ...`, acting on cell `i`
for the `i`-th column.  `act` computes the action for one column and may fail
(e.g. a failed column lookup inside the loop body). -/
def renderLoop (act : ℕ → Column → Except PlotError CellAct) :
    List Column → ℕ → List Cell → Except PlotError (List Cell)
  | [], _, cells => Except.ok cells
  | c :: rest, i, cells =>
      match act i c with
      | Except.error e => Except.error e
      | Except.ok a =>
        match
          (match a with
           | CellAct.draw ch t => drawAt cells i ch t
           | CellAct.del => delaxes cells i) with
        | Except.error e => Except.error e
        | Except.ok cells' => renderLoop act rest (i + 1) cells'

/-- Embedding of `num_filas = math.ceil(n_plots/2)`. -/
def num_filas (n : ℕ) : ℕ := (n + 1) / 2

/-- The shared rendering skeleton: build the `num_filas n × 2` grid (error if
it would have zero rows), run the drawing loop from index 0, then delete the
trailing cell `axes[-1]` when the number of plots is odd. -/
def renderGrid (cols : List Column) (act : ℕ → Column → Except PlotError CellAct) :
    Except PlotError Figure :=
  let n := cols.length
  let nf := num_filas n
  if nf = 0 then Except.error PlotError.zeroRows
  else
    match renderLoop act cols 0 (List.replicate (2 * nf) Cell.empty) with
    | Except.error e => Except.error e
    | Except.ok cells =>
      if n % 2 ≠ 0 then
        match delaxes cells (2 * nf - 1) with
        | Except.error e => Except.error e
        | Except.ok cells' => Except.ok ⟨nf, cells'⟩
      else Except.ok ⟨nf, cells⟩

/-- Occurrences of a value in a column (`value_counts` count of one key). -/
def countVal (l : List Value) (v : Value) : ℕ :=
  l.countP (fun x => decide (x = v))

/-- Distinct values in first-occurrence order.  (pandas builds the group keys
via a hash table; ties in the final count-sort keep this relative order.) -/
def dedupFirst (l : List Value) : List Value :=
  l.foldl (fun acc v => if v ∈ acc then acc else acc ++ [v]) []

/-- Stable insertion (descending by key) used to model pandas' descending
sorts (`value_counts`, `sort_values(ascending = False)`). -/
def insertDesc {α β : Type} [LinearOrder β] (key : α → β) (v : α) :
    List α → List α
  | [] => [v]
  | w :: rest => if key w ≤ key v then v :: w :: rest else w :: insertDesc key v rest

def sortDesc {α β : Type} [LinearOrder β] (key : α → β) : List α → List α
  | [] => []
  | v :: rest => insertDesc key v (sortDesc key rest)

/-- Embedding of `df[col].value_counts().index`: the distinct values of the
column ordered by descending frequency. -/
def value_counts_index (values : List Value) : List Value :=
  sortDesc (fun v => countVal values v) (dedupFirst values)

/-- Embedding of `df.columns` lookup (`df[name]` / `df.groupby(name)`). -/
def find_col (df : DataFrame) (name : String) : Option Column :=
  df.cols.find? (fun c => decide (c.name = name))

def Value.asNum : Value → Option ℚ
  | Value.num q => some q
  | _ => none

/-- Arithmetic mean of a list of rationals (division by zero yields 0; the
groups a mean is taken over are always nonempty). -/
def meanQ (l : List ℚ) : ℚ := l.sum / l.length

/-- Embedding of
`df.groupby(col)[vr].mean().sort_values(ascending=False).reset_index()`:
a missing `vr` column raises `KeyError` (column not found); a `vr` column with
non-numeric values raises `TypeError` when the mean is taken.  Group keys are
taken in first-occurrence order; the final order is by descending mean. -/
def groupby_mean (df : DataFrame) (col vr : String) :
    Except PlotError (List (Value × ℚ)) :=
  match find_col df col, find_col df vr with
  | some c, some v =>
      if (v.values.map Value.asNum).all Option.isSome then
        let pairs := c.values.zip v.values
        Except.ok (sortDesc Prod.snd
          ((dedupFirst c.values).map (fun k =>
            (k, meanQ ((pairs.filter (fun p => decide (p.1 = k))).filterMap
                  (fun p => p.2.asNum))))))
      else Except.error PlotError.typeError
  | _, _ => Except.error PlotError.keyNotFound

/-- Embedding of `plot_numericas` (src/soporte.py:25-52): one histogram per
numeric column, `nbins` bins (source default 20), title = column name. -/
def plot_numericas (df : DataFrame) (nbins : ℕ) : Except PlotError Figure :=
  let df_num := (separar_df df).1
  renderGrid df_num.cols
    (fun _ c => Except.ok (CellAct.draw (Chart.hist c.name nbins) c.name))

/-- Embedding of `plot_categoricas` (src/soporte.py:55-86): one count-bar
chart per object column, bars ordered by `df[col].value_counts().index`
(`df[col]` holds the same values as the subset's column of that name, so the
order is computed from the column's own values). -/
def plot_categoricas (df : DataFrame) : Except PlotError Figure :=
  let df_cat := (separar_df df).2
  renderGrid df_cat.cols
    (fun _ c => Except.ok
      (CellAct.draw (Chart.countBar c.name (value_counts_index c.values)) c.name))

/-- Embedding of `relacion_vr_categoricas` (src/soporte.py:89-122): one bar
chart of group means of `vr` per object column. -/
def relacion_vr_categoricas (df : DataFrame) (vr : String) :
    Except PlotError Figure :=
  let df_cat := select_dtypes_object df
  renderGrid df_cat.cols
    (fun _ c =>
      match groupby_mean df c.name vr with
      | Except.error e => Except.error e
      | Except.ok g =>
          Except.ok (CellAct.draw (Chart.barMeans c.name vr g) c.name))

/-- Embedding of `relacion_vr_numericas` (src/soporte.py:125-161): a scatter
chart of each numeric column against `vr`; the cell of the column equal to
`vr` itself is deleted instead. -/
def relacion_vr_numericas (df : DataFrame) (vr : String) :
    Except PlotError Figure :=
  let df_num := select_dtypes_number df
  renderGrid df_num.cols
    (fun _ c => Except.ok
      (if c.name = vr then CellAct.del
       else CellAct.draw (Chart.scatter c.name vr) c.name))

/-- Embedding of `detectar_outliers` (src/soporte.py:182-217): one boxplot per
numeric column; colors come from a `mako` palette sized to the column count,
`color_list[i]` for the `i`-th column; title `"Outliers de " ++ col`.  The
`vr` parameter is never used by the body. -/
def detectar_outliers (df : DataFrame) (vr : String) : Except PlotError Figure :=
  let df_num := select_dtypes_number df
  renderGrid df_num.cols
    (fun i c => Except.ok
      (CellAct.draw (Chart.box c.name i) ("Outliers de " ++ c.name)))

/-!
Generic lemmas about the drawing loop and the grid skeleton.
-/

theorem drawAt_eq_ok (cells : List Cell) (i : ℕ) (ch : Chart) (t : String)
    (hc : cells[i]? = some c) (hr : c.removed = false) :
    drawAt cells i ch t = Except.ok (cells.set i (applyAct (CellAct.draw ch t) c)) := by
  simp [drawAt, hc, hr, applyAct]

theorem delaxes_eq_ok (cells : List Cell) (i : ℕ)
    (hc : cells[i]? = some c) (hr : c.removed = false) :
    delaxes cells i = Except.ok (cells.set i (applyAct CellAct.del c)) := by
  simp [delaxes, hc, hr, applyAct]

/-- Pointwise description of a run of the drawing loop whose per-column action
always succeeds: starting from index `i` on a sufficiently long list of
not-yet-removed cells, the loop succeeds and cell `j` receives the action of
column `j - i`; other cells are untouched. -/
theorem renderLoop_ok_spec (actF : ℕ → Column → CellAct) :
    ∀ (cols : List Column) (i : ℕ) (cells : List Cell),
      i + cols.length ≤ cells.length →
      (∀ j c, i ≤ j → cells[j]? = some c → c.removed = false) →
      ∃ cells',
        renderLoop (fun k c => Except.ok (actF k c)) cols i cells = Except.ok cells' ∧
        cells'.length = cells.length ∧
        ∀ j, cells'[j]? =
          if i ≤ j ∧ j < i + cols.length
          then (cells[j]?).map (applyAct (actF j (cols.getD (j - i) default)))
          else cells[j]? := by
  intro cols
  induction cols with
  | nil =>
    intro i cells _ _
    refine ⟨cells, rfl, rfl, ?_⟩
    intro j
    rw [if_neg]
    simp only [List.length_nil]
    omega
  | cons c rest ih =>
    intro i cells hlen hfree
    have hi : i < cells.length := by
      simp only [List.length_cons] at hlen; omega
    have hc₀ : cells[i]? = some cells[i] := List.getElem?_eq_getElem hi
    have hrem : cells[i].removed = false := hfree i cells[i] (Nat.le_refl i) hc₀
    have hstep : renderLoop (fun k c => Except.ok (actF k c)) (c :: rest) i cells
        = renderLoop (fun k c => Except.ok (actF k c)) rest (i + 1)
            (cells.set i (applyAct (actF i c) cells[i])) := by
      cases hact : actF i c with
      | draw ch t => simp [renderLoop, hact, drawAt, hc₀, hrem, applyAct]
      | del => simp [renderLoop, hact, delaxes, hc₀, hrem, applyAct]
    have hlen₁ : (i + 1) + rest.length ≤ (cells.set i (applyAct (actF i c) cells[i])).length := by
      simp only [List.length_set, List.length_cons] at hlen ⊢; omega
    have hfree₁ : ∀ j c', i + 1 ≤ j →
        (cells.set i (applyAct (actF i c) cells[i]))[j]? = some c' → c'.removed = false := by
      intro j c' hj hjc
      rw [List.getElem?_set_ne (by omega)] at hjc
      exact hfree j c' (by omega) hjc
    obtain ⟨cells'', heq, hlen'', hpt⟩ := ih (i + 1) _ hlen₁ hfree₁
    refine ⟨cells'', hstep.trans heq, by rw [hlen'']; simp, ?_⟩
    intro j
    by_cases hji : j = i
    · subst hji
      rw [hpt j, if_neg (by omega), if_pos ⟨Nat.le_refl j, by simp only [List.length_cons]; omega⟩]
      rw [List.getElem?_set_self hi, hc₀]
      simp
    · by_cases hcond : i + 1 ≤ j ∧ j < (i + 1) + rest.length
      · rw [hpt j, if_pos hcond,
          if_pos ⟨by omega, by simp only [List.length_cons]; omega⟩,
          List.getElem?_set_ne (by omega)]
        have hsub : j - i = (j - (i + 1)) + 1 := by omega
        rw [hsub, List.getD_cons_succ]
      · rw [hpt j, if_neg hcond, List.getElem?_set_ne (by omega), if_neg]
        simp only [List.length_cons]
        omega

/-- A run of the drawing loop whose per-column action can fail, but never with
a layout error and never by deleting a cell: the loop itself never raises a
layout error, and a successful run leaves every cell's removed-flag as it was. -/
theorem renderLoop_no_overflow (act : ℕ → Column → Except PlotError CellAct) :
    ∀ (cols : List Column) (i : ℕ) (cells : List Cell),
      i + cols.length ≤ cells.length →
      (∀ j c, i ≤ j → cells[j]? = some c → c.removed = false) →
      (∀ k c, act k c ≠ Except.error PlotError.layoutOverflow) →
      (∀ k c a, act k c = Except.ok a → ∃ ch t, a = CellAct.draw ch t) →
      renderLoop act cols i cells ≠ Except.error PlotError.layoutOverflow ∧
      ∀ cells', renderLoop act cols i cells = Except.ok cells' →
        cells'.length = cells.length ∧
        ∀ j : ℕ, (cells'[j]?).map Cell.removed = (cells[j]?).map Cell.removed := by
  intro cols
  induction cols with
  | nil =>
    intro i cells _ _ _ _
    refine ⟨by simp [renderLoop], ?_⟩
    intro cells' h
    simp only [renderLoop, Except.ok.injEq] at h
    subst h
    exact ⟨rfl, fun j => rfl⟩
  | cons c rest ih =>
    intro i cells hlen hfree hactno hdraw
    have hi : i < cells.length := by
      simp only [List.length_cons] at hlen; omega
    have hc₀ : cells[i]? = some cells[i] := List.getElem?_eq_getElem hi
    have hrem : cells[i].removed = false := hfree i cells[i] (Nat.le_refl i) hc₀
    cases hact : act i c with
    | error e =>
      have hred : renderLoop act (c :: rest) i cells = Except.error e := by
        simp [renderLoop, hact]
      have he : e ≠ PlotError.layoutOverflow := by
        intro h; subst h; exact hactno i c hact
      refine ⟨?_, ?_⟩
      · rw [hred]; intro h; exact he (by injection h)
      · intro cells' h; rw [hred] at h; exact absurd h (by simp)
    | ok a =>
      obtain ⟨ch, t, rfl⟩ := hdraw i c a hact
      have hstep : renderLoop act (c :: rest) i cells
          = renderLoop act rest (i + 1)
              (cells.set i (applyAct (CellAct.draw ch t) cells[i])) := by
        simp [renderLoop, hact, drawAt, hc₀, hrem, applyAct]
      have hlen₁ : (i + 1) + rest.length
          ≤ (cells.set i (applyAct (CellAct.draw ch t) cells[i])).length := by
        simp only [List.length_set, List.length_cons] at hlen ⊢; omega
      have hfree₁ : ∀ j c', i + 1 ≤ j →
          (cells.set i (applyAct (CellAct.draw ch t) cells[i]))[j]? = some c' →
          c'.removed = false := by
        intro j c' hj hjc
        rw [List.getElem?_set_ne (by omega)] at hjc
        exact hfree j c' (by omega) hjc
      obtain ⟨hne, hok⟩ := ih (i + 1) _ hlen₁ hfree₁ hactno hdraw
      refine ⟨by rw [hstep]; exact hne, ?_⟩
      intro cells' hceq
      rw [hstep] at hceq
      obtain ⟨hl, hp⟩ := hok cells' hceq
      refine ⟨by rw [hl]; simp, ?_⟩
      intro j
      rw [hp j]
      by_cases hji : j = i
      · subst hji
        rw [List.getElem?_set_self hi, hc₀]
        simp [applyAct]
      · rw [List.getElem?_set_ne (by omega)]

theorem le_two_num_filas (n : ℕ) : n ≤ 2 * num_filas n := by
  unfold num_filas; omega

theorem replicate_empty_not_removed (N : ℕ) :
    ∀ (j : ℕ) (c : Cell), 0 ≤ j →
      (List.replicate N Cell.empty)[j]? = some c → c.removed = false := by
  intro j c _ hc
  by_cases hj : j < N
  · rw [List.getElem?_replicate_of_lt hj] at hc
    cases hc; rfl
  · rw [List.getElem?_replicate, if_neg hj] at hc
    cases hc

/-- Full description of the grid skeleton when every per-column action
succeeds: the grid has `num_filas n` rows of 2 cells, cell `j < n` holds the
action of column `j`, and when `n` is odd the trailing cell (index `n`) ends
up removed and empty. -/
theorem renderGrid_ok_spec (actF : ℕ → Column → CellAct) (cols : List Column)
    (h1 : 1 ≤ cols.length) :
    ∃ fig, renderGrid cols (fun k c => Except.ok (actF k c)) = Except.ok fig ∧
      fig.nrows = num_filas cols.length ∧
      fig.cells.length = 2 * num_filas cols.length ∧
      (∀ j : ℕ, j < cols.length →
        fig.cells[j]? = some (applyAct (actF j (cols.getD j default)) Cell.empty)) ∧
      (cols.length % 2 = 1 →
        fig.cells[cols.length]? = some { Cell.empty with removed := true }) ∧
      (cols.length % 2 = 0 → fig.cells.length = cols.length) := by
  have hnf : num_filas cols.length ≠ 0 := by unfold num_filas; omega
  have hlen0 : 0 + cols.length
      ≤ (List.replicate (2 * num_filas cols.length) Cell.empty).length := by
    rw [List.length_replicate]
    have := le_two_num_filas cols.length
    omega
  obtain ⟨cells', heq, hlen', hpt⟩ :=
    renderLoop_ok_spec actF cols 0 _ hlen0 (replicate_empty_not_removed _)
  have hlenrep : cells'.length = 2 * num_filas cols.length := by
    rw [hlen', List.length_replicate]
  have hptj : ∀ j : ℕ, j < cols.length →
      cells'[j]? = some (applyAct (actF j (cols.getD j default)) Cell.empty) := by
    intro j hj
    have hj2 : j < 2 * num_filas cols.length := by
      have := le_two_num_filas cols.length; omega
    rw [hpt j, if_pos ⟨Nat.zero_le j, by omega⟩, List.getElem?_replicate_of_lt hj2]
    simp
  have hptn : ∀ j : ℕ, cols.length ≤ j →
      cells'[j]? = (List.replicate (2 * num_filas cols.length) Cell.empty)[j]? := by
    intro j hj
    rw [hpt j, if_neg (by omega)]
  by_cases hodd : cols.length % 2 = 1
  · have h2nf : 2 * num_filas cols.length = cols.length + 1 := by
      unfold num_filas; omega
    have hcn : cells'[cols.length]? = some Cell.empty := by
      rw [hptn _ (Nat.le_refl _), List.getElem?_replicate_of_lt (by omega)]
    have hdel : delaxes cells' (2 * num_filas cols.length - 1)
        = Except.ok (cells'.set cols.length (applyAct CellAct.del Cell.empty)) := by
      have hidx : 2 * num_filas cols.length - 1 = cols.length := by omega
      rw [hidx]
      exact delaxes_eq_ok _ _ hcn rfl
    have hne0 : cols.length % 2 ≠ 0 := by omega
    have hgrid : renderGrid cols (fun k c => Except.ok (actF k c))
        = Except.ok ⟨num_filas cols.length,
            cells'.set cols.length (applyAct CellAct.del Cell.empty)⟩ := by
      simp [renderGrid, hnf, heq, hne0, hdel]
    refine ⟨_, hgrid, rfl, ?_, ?_, ?_, ?_⟩
    · simp only [List.length_set]
      exact hlenrep
    · intro j hj
      rw [List.getElem?_set_ne (by omega)]
      exact hptj j hj
    · intro _
      rw [List.getElem?_set_self (by rw [hlenrep]; omega)]
      rfl
    · intro hcontra
      omega
  · have heven : cols.length % 2 = 0 := by omega
    have hne2 : ¬ cols.length % 2 ≠ 0 := by omega
    have h2nf : 2 * num_filas cols.length = cols.length := by
      unfold num_filas; omega
    have hgrid : renderGrid cols (fun k c => Except.ok (actF k c))
        = Except.ok ⟨num_filas cols.length, cells'⟩ := by
      simp [renderGrid, hnf, heq, hne2]
    refine ⟨_, hgrid, rfl, hlenrep, hptj, ?_, ?_⟩
    · intro hcontra; omega
    · intro _; rw [hlenrep, h2nf]

/-- The grid skeleton when the per-column action can fail, but never with a
layout error and never by deleting a cell: the renderer never raises a layout
error, and a successful run yields the expected grid with exactly the trailing
cell (present only for odd column counts) removed. -/
theorem renderGrid_no_overflow (act : ℕ → Column → Except PlotError CellAct)
    (cols : List Column) (h1 : 1 ≤ cols.length)
    (hactno : ∀ k c, act k c ≠ Except.error PlotError.layoutOverflow)
    (hdraw : ∀ k c a, act k c = Except.ok a → ∃ ch t, a = CellAct.draw ch t) :
    renderGrid cols act ≠ Except.error PlotError.layoutOverflow ∧
    ∀ fig, renderGrid cols act = Except.ok fig →
      fig.nrows = num_filas cols.length ∧
      fig.cells.length = 2 * num_filas cols.length ∧
      ∀ j : ℕ, (fig.cells[j]?).map Cell.removed =
        if cols.length % 2 = 1 ∧ j = cols.length then some true
        else if j < 2 * num_filas cols.length then some false
        else none := by
  have hnf : num_filas cols.length ≠ 0 := by unfold num_filas; omega
  have hlen0 : 0 + cols.length
      ≤ (List.replicate (2 * num_filas cols.length) Cell.empty).length := by
    rw [List.length_replicate]
    have := le_two_num_filas cols.length
    omega
  obtain ⟨hne, hok⟩ :=
    renderLoop_no_overflow act cols 0 _ hlen0 (replicate_empty_not_removed _) hactno hdraw
  cases hLoop : renderLoop act cols 0 (List.replicate (2 * num_filas cols.length) Cell.empty) with
  | error e =>
    have hegrid : renderGrid cols act = Except.error e := by
      simp [renderGrid, hnf, hLoop]
    have heno : e ≠ PlotError.layoutOverflow := by
      intro hcontra; subst hcontra; exact hne hLoop
    refine ⟨?_, ?_⟩
    · rw [hegrid]; intro hcontra; exact heno (by injection hcontra)
    · intro fig hfig; rw [hegrid] at hfig; exact absurd hfig (by simp)
  | ok cells' =>
    obtain ⟨hlen', hrem⟩ := hok cells' hLoop
    have hlenrep : cells'.length = 2 * num_filas cols.length := by
      rw [hlen', List.length_replicate]
    have hremj : ∀ j : ℕ, (cells'[j]?).map Cell.removed =
        if j < 2 * num_filas cols.length then some false else none := by
      intro j
      rw [hrem j]
      by_cases hj : j < 2 * num_filas cols.length
      · rw [List.getElem?_replicate_of_lt hj, if_pos hj]; rfl
      · rw [List.getElem?_replicate, if_neg hj, if_neg hj]; rfl
    by_cases hodd : cols.length % 2 = 1
    · have h2nf : 2 * num_filas cols.length = cols.length + 1 := by
        unfold num_filas; omega
      obtain ⟨c, hc, hcrem⟩ : ∃ c, cells'[cols.length]? = some c ∧ c.removed = false := by
        have hmapr := hremj cols.length
        rw [if_pos (by omega)] at hmapr
        cases hcc : cells'[cols.length]? with
        | none => rw [hcc] at hmapr; simp at hmapr
        | some c =>
          rw [hcc] at hmapr
          simp only [Option.map_some', Option.some.injEq] at hmapr
          exact ⟨c, rfl, hmapr⟩
      have hdel : delaxes cells' (2 * num_filas cols.length - 1)
          = Except.ok (cells'.set cols.length (applyAct CellAct.del c)) := by
        have hidx : 2 * num_filas cols.length - 1 = cols.length := by omega
        rw [hidx]
        exact delaxes_eq_ok _ _ hc hcrem
      have hne0 : cols.length % 2 ≠ 0 := by omega
      have hgrid : renderGrid cols act
          = Except.ok ⟨num_filas cols.length,
              cells'.set cols.length (applyAct CellAct.del c)⟩ := by
        simp [renderGrid, hnf, hLoop, hne0, hdel]
      refine ⟨by rw [hgrid]; simp, ?_⟩
      intro fig hfig
      rw [hgrid] at hfig
      simp only [Except.ok.injEq] at hfig
      subst hfig
      refine ⟨rfl, by simp only [List.length_set]; exact hlenrep, ?_⟩
      intro j
      by_cases hjn : j = cols.length
      · subst hjn
        rw [List.getElem?_set_self (by rw [hlenrep]; omega), if_pos ⟨hodd, rfl⟩]
        rfl
      · rw [List.getElem?_set_ne (by omega), hremj j]
        have hniff : ¬(cols.length % 2 = 1 ∧ j = cols.length) :=
          fun hcontra => hjn hcontra.2
        conv_rhs => rw [if_neg hniff]
    · have hne2 : ¬ cols.length % 2 ≠ 0 := by omega
      have hgrid : renderGrid cols act = Except.ok ⟨num_filas cols.length, cells'⟩ := by
        simp [renderGrid, hnf, hLoop, hne2]
      refine ⟨by rw [hgrid]; simp, ?_⟩
      intro fig hfig
      rw [hgrid] at hfig
      simp only [Except.ok.injEq] at hfig
      subst hfig
      refine ⟨rfl, hlenrep, ?_⟩
      intro j
      rw [hremj j]
      have hniff : ¬(cols.length % 2 = 1 ∧ j = cols.length) :=
        fun hcontra => hodd hcontra.1
      conv_rhs => rw [if_neg hniff]

theorem groupby_mean_no_overflow (df : DataFrame) (a b : String) :
    groupby_mean df a b ≠ Except.error PlotError.layoutOverflow := by
  unfold groupby_mean
  cases find_col df a <;> cases find_col df b <;> simp <;> split <;> simp

theorem getD_removed_of_map {l : List Cell} {j : ℕ} {b : Bool}
    (h : (l[j]?).map Cell.removed = some b) : (l.getD j Cell.empty).removed = b := by
  cases hc : l[j]? with
  | none => rw [hc] at h; simp at h
  | some c =>
    rw [hc] at h
    simp only [Option.map_some', Option.some.injEq] at h
    rw [List.getD_eq_getElem?_getD, hc]
    simp only [Option.getD_some]
    exact h

theorem renderGrid_zero (cols : List Column)
    (act : ℕ → Column → Except PlotError CellAct) (h0 : cols.length = 0) :
    renderGrid cols act = Except.error PlotError.zeroRows := by
  have hnf : num_filas cols.length = 0 := by rw [h0]; rfl
  simp [renderGrid, hnf]

/-- C6: whenever a renderer has at least one relevant column, every grid index
it uses (each drawing index, the self-relation deletion index, and the
trailing-cell deletion index) addresses a valid, not-yet-removed cell: no run
ever returns the `layoutOverflow` error that signals an out-of-range index, a
draw into a removed cell, or a double removal. -/
theorem renderers_no_layout_overflow :
    (∀ df nbins, 1 ≤ (separar_df df).1.cols.length →
      plot_numericas df nbins ≠ Except.error PlotError.layoutOverflow) ∧
    (∀ df, 1 ≤ (separar_df df).2.cols.length →
      plot_categoricas df ≠ Except.error PlotError.layoutOverflow) ∧
    (∀ df vr, 1 ≤ (select_dtypes_object df).cols.length →
      relacion_vr_categoricas df vr ≠ Except.error PlotError.layoutOverflow) ∧
    (∀ df vr, 1 ≤ (select_dtypes_number df).cols.length →
      relacion_vr_numericas df vr ≠ Except.error PlotError.layoutOverflow) ∧
    (∀ df vr, 1 ≤ (select_dtypes_number df).cols.length →
      detectar_outliers df vr ≠ Except.error PlotError.layoutOverflow) := by
  refine ⟨?_, ?_, ?_, ?_, ?_⟩
  · intro df nbins h1 hcontra
    obtain ⟨fig, hfig, -⟩ := renderGrid_ok_spec
      (fun _ c => CellAct.draw (Chart.hist c.name nbins) c.name) (separar_df df).1.cols h1
    have hok : plot_numericas df nbins = Except.ok fig := hfig
    rw [hok] at hcontra
    exact absurd hcontra (by simp)
  · intro df h1 hcontra
    obtain ⟨fig, hfig, -⟩ := renderGrid_ok_spec
      (fun _ c => CellAct.draw (Chart.countBar c.name (value_counts_index c.values)) c.name)
      (separar_df df).2.cols h1
    have hok : plot_categoricas df = Except.ok fig := hfig
    rw [hok] at hcontra
    exact absurd hcontra (by simp)
  · intro df vr h1 hcontra
    have hactno : ∀ (k : ℕ) (c : Column),
        (fun (_ : ℕ) (c : Column) =>
          match groupby_mean df c.name vr with
          | Except.error e => Except.error e
          | Except.ok g =>
              Except.ok (CellAct.draw (Chart.barMeans c.name vr g) c.name)) k c
        ≠ Except.error PlotError.layoutOverflow := by
      intro k c hk
      cases hg : groupby_mean df c.name vr with
      | error e =>
        simp only [hg] at hk
        injection hk with hk
        subst hk
        exact groupby_mean_no_overflow df c.name vr hg
      | ok g => simp [hg] at hk
    have hdraw : ∀ (k : ℕ) (c : Column) (a : CellAct),
        (fun (_ : ℕ) (c : Column) =>
          match groupby_mean df c.name vr with
          | Except.error e => Except.error e
          | Except.ok g =>
              Except.ok (CellAct.draw (Chart.barMeans c.name vr g) c.name)) k c
        = Except.ok a → ∃ ch t, a = CellAct.draw ch t := by
      intro k c a hk
      cases hg : groupby_mean df c.name vr with
      | error e => simp only [hg] at hk; exact absurd hk (by simp)
      | ok g =>
        simp only [hg] at hk
        injection hk with hk
        exact ⟨_, _, hk.symm⟩
    obtain ⟨hne, -⟩ :=
      renderGrid_no_overflow _ (select_dtypes_object df).cols h1 hactno hdraw
    exact hne hcontra
  · intro df vr h1 hcontra
    obtain ⟨fig, hfig, -⟩ := renderGrid_ok_spec
      (fun _ c => if c.name = vr then CellAct.del
        else CellAct.draw (Chart.scatter c.name vr) c.name)
      (select_dtypes_number df).cols h1
    have hok : relacion_vr_numericas df vr = Except.ok fig := hfig
    rw [hok] at hcontra
    exact absurd hcontra (by simp)
  · intro df vr h1 hcontra
    obtain ⟨fig, hfig, -⟩ := renderGrid_ok_spec
      (fun i c => CellAct.draw (Chart.box c.name i) ("Outliers de " ++ c.name))
      (select_dtypes_number df).cols h1
    have hok : detectar_outliers df vr = Except.ok fig := hfig
    rw [hok] at hcontra
    exact absurd hcontra (by simp)

/-- Witness for C6 at the concrete frame `dfMixed`. -/
theorem renderers_no_layout_overflow_witness :
    plot_numericas dfMixed 20 ≠ Except.error PlotError.layoutOverflow ∧
    plot_categoricas dfMixed ≠ Except.error PlotError.layoutOverflow ∧
    relacion_vr_categoricas dfMixed "age" ≠ Except.error PlotError.layoutOverflow ∧
    relacion_vr_numericas dfMixed "age" ≠ Except.error PlotError.layoutOverflow ∧
    detectar_outliers dfMixed "age" ≠ Except.error PlotError.layoutOverflow :=
  ⟨renderers_no_layout_overflow.1 dfMixed 20 (by decide),
   renderers_no_layout_overflow.2.1 dfMixed (by decide),
   renderers_no_layout_overflow.2.2.1 dfMixed "age" (by decide),
   renderers_no_layout_overflow.2.2.2.1 dfMixed "age" (by decide),
   renderers_no_layout_overflow.2.2.2.2 dfMixed "age" (by decide)⟩

/-- C8 counterexample: on a table with no numeric columns the renderer does
crash — it propagates the zero-rows grid-creation error (matplotlib rejects a
grid with zero rows) instead of surfacing a nothing-to-plot condition. -/
theorem plot_numericas_zero_columns_cex :
    plot_numericas ⟨[]⟩ 20 = Except.error PlotError.zeroRows := by decide

/-- C8 (amended): for every table whose relevant column subset is empty, each
grid-based renderer fails at grid creation with the zero-rows layout error
(it does not draw anything and does not surface a nothing-to-plot condition). -/
theorem renderers_zero_columns_error :
    (∀ df nbins, (separar_df df).1.cols.length = 0 →
      plot_numericas df nbins = Except.error PlotError.zeroRows) ∧
    (∀ df, (separar_df df).2.cols.length = 0 →
      plot_categoricas df = Except.error PlotError.zeroRows) ∧
    (∀ df vr, (select_dtypes_object df).cols.length = 0 →
      relacion_vr_categoricas df vr = Except.error PlotError.zeroRows) ∧
    (∀ df vr, (select_dtypes_number df).cols.length = 0 →
      relacion_vr_numericas df vr = Except.error PlotError.zeroRows) ∧
    (∀ df vr, (select_dtypes_number df).cols.length = 0 →
      detectar_outliers df vr = Except.error PlotError.zeroRows) :=
  ⟨fun df nbins h0 => renderGrid_zero _ _ h0,
   fun df h0 => renderGrid_zero _ _ h0,
   fun df vr h0 => renderGrid_zero _ _ h0,
   fun df vr h0 => renderGrid_zero _ _ h0,
   fun df vr h0 => renderGrid_zero _ _ h0⟩

/-- Example frame with a single boolean column: both the numeric and the
categorical subsets are empty. -/
def dfBool : DataFrame := ⟨[⟨"active", Dtype.bool, [Value.bool true]⟩]⟩

/-- Witness for the amended C8 at the concrete frame `dfBool`. -/
theorem renderers_zero_columns_error_witness :
    plot_numericas dfBool 20 = Except.error PlotError.zeroRows ∧
    plot_categoricas dfBool = Except.error PlotError.zeroRows ∧
    relacion_vr_categoricas dfBool "active" = Except.error PlotError.zeroRows ∧
    relacion_vr_numericas dfBool "active" = Except.error PlotError.zeroRows ∧
    detectar_outliers dfBool "active" = Except.error PlotError.zeroRows :=
  ⟨renderers_zero_columns_error.1 dfBool 20 (by decide),
   renderers_zero_columns_error.2.1 dfBool (by decide),
   renderers_zero_columns_error.2.2.1 dfBool "active" (by decide),
   renderers_zero_columns_error.2.2.2.1 dfBool "active" (by decide),
   renderers_zero_columns_error.2.2.2.2 dfBool "active" (by decide)⟩

/-- The group list produced by a successful `groupby_mean` run (the group
keys in first-occurrence order, paired with the group means of `vr`, sorted
by descending mean). -/
def groupsOf (df : DataFrame) (col vr : String) : List (Value × ℚ) :=
  match find_col df col, find_col df vr with
  | some c, some v =>
      let pairs := c.values.zip v.values
      sortDesc Prod.snd
        ((dedupFirst c.values).map (fun k =>
          (k, meanQ ((pairs.filter (fun p => decide (p.1 = k))).filterMap
                (fun p => p.2.asNum)))))
  | _, _ => []

theorem groupby_mean_eq_ok (df : DataFrame) (col vr : String) (c v : Column)
    (hc : find_col df col = some c) (hv : find_col df vr = some v)
    (hnum : (v.values.map Value.asNum).all Option.isSome = true) :
    groupby_mean df col vr = Except.ok (groupsOf df col vr) := by
  unfold groupby_mean groupsOf
  rw [hc, hv]
  simp [hnum]

theorem find_col_mem (df : DataFrame) (c : Column) (hc : c ∈ df.cols) :
    ∃ c', find_col df c.name = some c' := by
  unfold find_col
  cases hfind : df.cols.find? (fun x => decide (x.name = c.name)) with
  | some c' => exact ⟨c', rfl⟩
  | none =>
    have := List.find?_eq_none.mp hfind c hc
    simp at this

theorem renderLoop_congr (act₁ act₂ : ℕ → Column → Except PlotError CellAct) :
    ∀ (cols : List Column) (i : ℕ) (cells : List Cell),
      (∀ k c, c ∈ cols → act₁ k c = act₂ k c) →
      renderLoop act₁ cols i cells = renderLoop act₂ cols i cells := by
  intro cols
  induction cols with
  | nil => intro i cells _; rfl
  | cons c rest ih =>
    intro i cells hag
    simp only [renderLoop]
    rw [hag i c (List.mem_cons_self c rest)]
    cases act₂ i c with
    | error e => rfl
    | ok a =>
      dsimp only
      cases hres : (match a with
        | CellAct.draw ch t => drawAt cells i ch t
        | CellAct.del => delaxes cells i) with
      | error e => rfl
      | ok cells' =>
        exact ih (i + 1) cells' (fun k c' hc' => hag k c' (List.mem_cons_of_mem _ hc'))

theorem renderGrid_congr (act₁ act₂ : ℕ → Column → Except PlotError CellAct)
    (cols : List Column) (hag : ∀ k c, c ∈ cols → act₁ k c = act₂ k c) :
    renderGrid cols act₁ = renderGrid cols act₂ := by
  unfold renderGrid
  dsimp only
  rw [renderLoop_congr act₁ act₂ cols 0 _ hag]

/-- Removed-flag of the final grid cell `axes[-1]` (index `2 * nrows - 1`). -/
def lastCellRemoved (fig : Figure) : Bool :=
  (fig.cells.getD (2 * fig.nrows - 1) Cell.empty).removed

/-- Example frame with two numeric columns. -/
def dfXY : DataFrame :=
  ⟨[⟨"x", Dtype.num, [Value.num 1, Value.num 2]⟩,
    ⟨"y", Dtype.num, [Value.num 3, Value.num 4]⟩]⟩

/-- C2 counterexample: with the two numeric columns `x`, `y` (an even count)
and response variable `y`, `relacion_vr_numericas` deletes the final grid cell
by the self-relation rule, so "the final cell is removed iff `n_plots` is odd"
fails at this input. -/
theorem trailing_cell_removal_cex :
    ¬ (((relacion_vr_numericas dfXY "y").map lastCellRemoved = Except.ok true) ↔
       (select_dtypes_number dfXY).cols.length % 2 = 1) := by decide

/-- C2 (amended): each grid-based renderer lays its charts out on a grid of
`ceil(n_plots / 2)` rows by 2 columns, and the final grid cell ends up removed
iff `n_plots` is odd — except in `relacion_vr_numericas`, where the final cell
is removed iff `n_plots` is odd or the last numeric column is the response
variable (the self-relation rule removes that cell during drawing). -/
theorem grid_shape_and_trailing_cell :
    (∀ df nbins, 1 ≤ (separar_df df).1.cols.length →
      ∃ fig, plot_numericas df nbins = Except.ok fig ∧
        fig.nrows = num_filas (separar_df df).1.cols.length ∧
        fig.cells.length = 2 * fig.nrows ∧
        (lastCellRemoved fig = true ↔ (separar_df df).1.cols.length % 2 = 1)) ∧
    (∀ df, 1 ≤ (separar_df df).2.cols.length →
      ∃ fig, plot_categoricas df = Except.ok fig ∧
        fig.nrows = num_filas (separar_df df).2.cols.length ∧
        fig.cells.length = 2 * fig.nrows ∧
        (lastCellRemoved fig = true ↔ (separar_df df).2.cols.length % 2 = 1)) ∧
    (∀ df vr, 1 ≤ (select_dtypes_number df).cols.length →
      ∃ fig, detectar_outliers df vr = Except.ok fig ∧
        fig.nrows = num_filas (select_dtypes_number df).cols.length ∧
        fig.cells.length = 2 * fig.nrows ∧
        (lastCellRemoved fig = true ↔ (select_dtypes_number df).cols.length % 2 = 1)) ∧
    (∀ df vr, 1 ≤ (select_dtypes_number df).cols.length →
      ∃ fig, relacion_vr_numericas df vr = Except.ok fig ∧
        fig.nrows = num_filas (select_dtypes_number df).cols.length ∧
        fig.cells.length = 2 * fig.nrows ∧
        (lastCellRemoved fig = true ↔
          ((select_dtypes_number df).cols.length % 2 = 1 ∨
            ((select_dtypes_number df).cols.getD
              ((select_dtypes_number df).cols.length - 1) default).name = vr))) ∧
    (∀ df vr v, 1 ≤ (select_dtypes_object df).cols.length →
      find_col df vr = some v →
      (v.values.map Value.asNum).all Option.isSome = true →
      ∃ fig, relacion_vr_categoricas df vr = Except.ok fig ∧
        fig.nrows = num_filas (select_dtypes_object df).cols.length ∧
        fig.cells.length = 2 * fig.nrows ∧
        (lastCellRemoved fig = true ↔ (select_dtypes_object df).cols.length % 2 = 1)) := by
  refine ⟨?_, ?_, ?_, ?_, ?_⟩
  · intro df nbins h1
    obtain ⟨fig, hfig, hnr, hlen, hcell, hoddc, -⟩ := renderGrid_ok_spec
      (fun _ c => CellAct.draw (Chart.hist c.name nbins) c.name) (separar_df df).1.cols h1
    have hok : plot_numericas df nbins = Except.ok fig := hfig
    refine ⟨fig, hok, hnr, by rw [hnr]; exact hlen, ?_⟩
    unfold lastCellRemoved
    by_cases hodd : (separar_df df).1.cols.length % 2 = 1
    · have hidx : 2 * fig.nrows - 1 = (separar_df df).1.cols.length := by
        rw [hnr]; unfold num_filas; omega
      rw [hidx, List.getD_eq_getElem?_getD, hoddc hodd]
      simp [hodd]
    · have hidx : 2 * fig.nrows - 1 = (separar_df df).1.cols.length - 1 := by
        rw [hnr]; unfold num_filas; omega
      rw [hidx, List.getD_eq_getElem?_getD, hcell _ (by omega)]
      simp [applyAct, hodd, Cell.empty]
  · intro df h1
    obtain ⟨fig, hfig, hnr, hlen, hcell, hoddc, -⟩ := renderGrid_ok_spec
      (fun _ c => CellAct.draw (Chart.countBar c.name (value_counts_index c.values)) c.name)
      (separar_df df).2.cols h1
    have hok : plot_categoricas df = Except.ok fig := hfig
    refine ⟨fig, hok, hnr, by rw [hnr]; exact hlen, ?_⟩
    unfold lastCellRemoved
    by_cases hodd : (separar_df df).2.cols.length % 2 = 1
    · have hidx : 2 * fig.nrows - 1 = (separar_df df).2.cols.length := by
        rw [hnr]; unfold num_filas; omega
      rw [hidx, List.getD_eq_getElem?_getD, hoddc hodd]
      simp [hodd]
    · have hidx : 2 * fig.nrows - 1 = (separar_df df).2.cols.length - 1 := by
        rw [hnr]; unfold num_filas; omega
      rw [hidx, List.getD_eq_getElem?_getD, hcell _ (by omega)]
      simp [applyAct, hodd, Cell.empty]
  · intro df vr h1
    obtain ⟨fig, hfig, hnr, hlen, hcell, hoddc, -⟩ := renderGrid_ok_spec
      (fun i c => CellAct.draw (Chart.box c.name i) ("Outliers de " ++ c.name))
      (select_dtypes_number df).cols h1
    have hok : detectar_outliers df vr = Except.ok fig := hfig
    refine ⟨fig, hok, hnr, by rw [hnr]; exact hlen, ?_⟩
    unfold lastCellRemoved
    by_cases hodd : (select_dtypes_number df).cols.length % 2 = 1
    · have hidx : 2 * fig.nrows - 1 = (select_dtypes_number df).cols.length := by
        rw [hnr]; unfold num_filas; omega
      rw [hidx, List.getD_eq_getElem?_getD, hoddc hodd]
      simp [hodd]
    · have hidx : 2 * fig.nrows - 1 = (select_dtypes_number df).cols.length - 1 := by
        rw [hnr]; unfold num_filas; omega
      rw [hidx, List.getD_eq_getElem?_getD, hcell _ (by omega)]
      simp [applyAct, hodd, Cell.empty]
  · intro df vr h1
    obtain ⟨fig, hfig, hnr, hlen, hcell, hoddc, -⟩ := renderGrid_ok_spec
      (fun _ c => if c.name = vr then CellAct.del
        else CellAct.draw (Chart.scatter c.name vr) c.name)
      (select_dtypes_number df).cols h1
    have hok : relacion_vr_numericas df vr = Except.ok fig := hfig
    refine ⟨fig, hok, hnr, by rw [hnr]; exact hlen, ?_⟩
    unfold lastCellRemoved
    by_cases hodd : (select_dtypes_number df).cols.length % 2 = 1
    · have hidx : 2 * fig.nrows - 1 = (select_dtypes_number df).cols.length := by
        rw [hnr]; unfold num_filas; omega
      rw [hidx, List.getD_eq_getElem?_getD, hoddc hodd]
      simp [hodd]
    · have hidx : 2 * fig.nrows - 1 = (select_dtypes_number df).cols.length - 1 := by
        rw [hnr]; unfold num_filas; omega
      rw [hidx, List.getD_eq_getElem?_getD, hcell _ (by omega)]
      by_cases hvr : ((select_dtypes_number df).cols.getD
          ((select_dtypes_number df).cols.length - 1) default).name = vr
      · rw [List.getD_eq_getElem?_getD] at hvr
        simp [applyAct, hvr, hodd, Cell.empty]
      · rw [List.getD_eq_getElem?_getD] at hvr
        simp [applyAct, hvr, hodd, Cell.empty]
  · intro df vr v h1 hv hnum
    have hag : ∀ (k : ℕ) (c : Column), c ∈ (select_dtypes_object df).cols →
        (fun (_ : ℕ) (c : Column) =>
          match groupby_mean df c.name vr with
          | Except.error e => Except.error e
          | Except.ok g =>
              Except.ok (CellAct.draw (Chart.barMeans c.name vr g) c.name)) k c
        = (fun (_ : ℕ) (c : Column) => Except.ok
            (CellAct.draw (Chart.barMeans c.name vr (groupsOf df c.name vr)) c.name)) k c := by
      intro k c hc
      have hcdf : c ∈ df.cols := List.mem_of_mem_filter hc
      obtain ⟨c', hc'⟩ := find_col_mem df c hcdf
      have hge := groupby_mean_eq_ok df c.name vr c' v hc' hv hnum
      simp only [hge]
    have hcongr := renderGrid_congr _ _ (select_dtypes_object df).cols hag
    obtain ⟨fig, hfig, hnr, hlen, hcell, hoddc, -⟩ := renderGrid_ok_spec
      (fun _ c => CellAct.draw (Chart.barMeans c.name vr (groupsOf df c.name vr)) c.name)
      (select_dtypes_object df).cols h1
    have hok : relacion_vr_categoricas df vr = Except.ok fig := hcongr.trans hfig
    refine ⟨fig, hok, hnr, by rw [hnr]; exact hlen, ?_⟩
    unfold lastCellRemoved
    by_cases hodd : (select_dtypes_object df).cols.length % 2 = 1
    · have hidx : 2 * fig.nrows - 1 = (select_dtypes_object df).cols.length := by
        rw [hnr]; unfold num_filas; omega
      rw [hidx, List.getD_eq_getElem?_getD, hoddc hodd]
      simp [hodd]
    · have hidx : 2 * fig.nrows - 1 = (select_dtypes_object df).cols.length - 1 := by
        rw [hnr]; unfold num_filas; omega
      rw [hidx, List.getD_eq_getElem?_getD, hcell _ (by omega)]
      simp [applyAct, hodd, Cell.empty]

/-- Witness for the amended C2 at concrete frames. -/
theorem grid_shape_and_trailing_cell_witness :
    (∃ fig, plot_numericas dfMixed 20 = Except.ok fig ∧
      fig.nrows = num_filas (separar_df dfMixed).1.cols.length ∧
      fig.cells.length = 2 * fig.nrows ∧
      (lastCellRemoved fig = true ↔ (separar_df dfMixed).1.cols.length % 2 = 1)) ∧
    (∃ fig, plot_categoricas dfMixed = Except.ok fig ∧
      fig.nrows = num_filas (separar_df dfMixed).2.cols.length ∧
      fig.cells.length = 2 * fig.nrows ∧
      (lastCellRemoved fig = true ↔ (separar_df dfMixed).2.cols.length % 2 = 1)) ∧
    (∃ fig, detectar_outliers dfMixed "age" = Except.ok fig ∧
      fig.nrows = num_filas (select_dtypes_number dfMixed).cols.length ∧
      fig.cells.length = 2 * fig.nrows ∧
      (lastCellRemoved fig = true ↔ (select_dtypes_number dfMixed).cols.length % 2 = 1)) ∧
    (∃ fig, relacion_vr_numericas dfMixed "age" = Except.ok fig ∧
      fig.nrows = num_filas (select_dtypes_number dfMixed).cols.length ∧
      fig.cells.length = 2 * fig.nrows ∧
      (lastCellRemoved fig = true ↔
        ((select_dtypes_number dfMixed).cols.length % 2 = 1 ∨
          ((select_dtypes_number dfMixed).cols.getD
            ((select_dtypes_number dfMixed).cols.length - 1) default).name = "age"))) ∧
    (∃ fig, relacion_vr_categoricas dfMixed "age" = Except.ok fig ∧
      fig.nrows = num_filas (select_dtypes_object dfMixed).cols.length ∧
      fig.cells.length = 2 * fig.nrows ∧
      (lastCellRemoved fig = true ↔
        (select_dtypes_object dfMixed).cols.length % 2 = 1)) :=
  ⟨grid_shape_and_trailing_cell.1 dfMixed 20 (by decide),
   grid_shape_and_trailing_cell.2.1 dfMixed (by decide),
   grid_shape_and_trailing_cell.2.2.1 dfMixed "age" (by decide),
   grid_shape_and_trailing_cell.2.2.2.1 dfMixed "age" (by decide),
   grid_shape_and_trailing_cell.2.2.2.2 dfMixed "age"
     ⟨"age", Dtype.num, [Value.num 30, Value.num 41]⟩ (by decide) (by decide) (by decide)⟩

/-- Whether a grid cell holds a scatter chart. -/
def isScatterCell (c : Cell) : Bool :=
  match c.chart with
  | some (Chart.scatter _ _) => true
  | _ => false

theorem countP_ne_range (n k : ℕ) (h : k < n) :
    (List.range n).countP (fun j => !decide (j = k)) = n - 1 := by
  induction n with
  | zero => omega
  | succ n ih =>
    rw [List.range_succ, List.countP_append]
    by_cases hk : k < n
    · rw [ih hk]
      have hne : ¬(n = k) := by omega
      simp [List.countP_cons, hne]
      omega
    · have hk' : k = n := by omega
      subst hk'
      have h0 : (List.range k).countP (fun j => !decide (j = k)) = k := by
      
        have := (List.countP_eq_length
          (l := List.range k) (p := fun j => !decide (j = k))).mpr ?_
        · rw [this, List.length_range]
        · intro a ha
          have := List.mem_range.mp ha
          simp only [Bool.not_eq_true', decide_eq_false_iff_not]
          omega
      rw [h0]
      simp [List.countP_cons]

/-- C3: when the response variable is one of the numeric columns, the grid
cell of that column is removed (and holds no chart), every other numeric
column's cell holds a scatter chart of that column against the response
variable, and exactly `n_plots - 1` cells hold a scatter chart. -/
theorem relacion_vr_numericas_self_cell (df : DataFrame) (vr : String)
    (hnd : (select_dtypes_number df).names.Nodup)
    (k : ℕ) (ck : Column)
    (hk : (select_dtypes_number df).cols[k]? = some ck) (hkvr : ck.name = vr) :
    ∃ fig, relacion_vr_numericas df vr = Except.ok fig ∧
      (fig.cells.getD k Cell.empty).removed = true ∧
      (fig.cells.getD k Cell.empty).chart = none ∧
      (∀ i ci, (select_dtypes_number df).cols[i]? = some ci → i ≠ k →
        (fig.cells.getD i Cell.empty).chart = some (Chart.scatter ci.name vr)) ∧
      fig.cells.countP isScatterCell = (select_dtypes_number df).cols.length - 1 := by
  have hklt : k < (select_dtypes_number df).cols.length := by
    by_contra hcontra
    rw [List.getElem?_eq_none (by omega)] at hk
    cases hk
  have h1 : 1 ≤ (select_dtypes_number df).cols.length := by omega
  obtain ⟨fig, hfig, hnr, hlen, hcell, hoddc, -⟩ := renderGrid_ok_spec
    (fun _ c => if c.name = vr then CellAct.del
      else CellAct.draw (Chart.scatter c.name vr) c.name)
    (select_dtypes_number df).cols h1
  have hok : relacion_vr_numericas df vr = Except.ok fig := hfig
  have hgetDk : (select_dtypes_number df).cols.getD k default = ck := by
    rw [List.getD_eq_getElem?_getD, hk]
    rfl
  have huniq : ∀ j, j < (select_dtypes_number df).cols.length → j ≠ k →
      ((select_dtypes_number df).cols.getD j default).name ≠ vr := by
    intro j hj hjk hname
    have hnamesj : ((select_dtypes_number df).cols.map Column.name).getD j "" = vr := by
      rw [List.getD_eq_getElem?_getD, List.getElem?_map]
      rw [List.getElem?_eq_getElem hj]
      simp only [Option.map_some', Option.getD_some]
      have : (select_dtypes_number df).cols.getD j default
          = (select_dtypes_number df).cols[j] := by
        rw [List.getD_eq_getElem?_getD, List.getElem?_eq_getElem hj]
        rfl
      rw [← this]
      exact hname
    have hnamesk : ((select_dtypes_number df).cols.map Column.name).getD k "" = vr := by
      rw [List.getD_eq_getElem?_getD, List.getElem?_map]
      rw [List.getElem?_eq_getElem hklt]
      simp only [Option.map_some', Option.getD_some]
      have : (select_dtypes_number df).cols.getD k default
          = (select_dtypes_number df).cols[k] := by
        rw [List.getD_eq_getElem?_getD, List.getElem?_eq_getElem hklt]
        rfl
      rw [← this]
      rw [hgetDk]
      exact hkvr
    have hjlt' : j < ((select_dtypes_number df).cols.map Column.name).length := by
      rw [List.length_map]; exact hj
    have hklt' : k < ((select_dtypes_number df).cols.map Column.name).length := by
      rw [List.length_map]; exact hklt
    have hjget : ((select_dtypes_number df).cols.map Column.name)[j] = vr := by
      have := hnamesj
      rw [List.getD_eq_getElem?_getD, List.getElem?_eq_getElem hjlt'] at this
      simpa using this
    have hkget : ((select_dtypes_number df).cols.map Column.name)[k] = vr := by
      have := hnamesk
      rw [List.getD_eq_getElem?_getD, List.getElem?_eq_getElem hklt'] at this
      simpa using this
    have : j = k := (List.Nodup.getElem_inj_iff hnd).mp (hjget.trans hkget.symm)
    exact hjk this
  refine ⟨fig, hok, ?_, ?_, ?_, ?_⟩
  · rw [List.getD_eq_getElem?_getD, hcell k hklt]
    simp [applyAct, hk, hkvr, Cell.empty]
  · rw [List.getD_eq_getElem?_getD, hcell k hklt]
    simp [applyAct, hk, hkvr, Cell.empty]
  · intro i ci hi hik
    have hilt : i < (select_dtypes_number df).cols.length := by
      by_contra hcontra
      rw [List.getElem?_eq_none (by omega)] at hi
      cases hi
    have hgetDi : (select_dtypes_number df).cols.getD i default = ci := by
      rw [List.getD_eq_getElem?_getD, hi]
      rfl
    rw [List.getD_eq_getElem?_getD, hcell i hilt]
    have hni : ci.name ≠ vr := by
      have := huniq i hilt hik
      rw [hgetDi] at this
      exact this
    simp [applyAct, hi, hni, Cell.empty]
  · have hparity : 2 * num_filas (select_dtypes_number df).cols.length
        = (select_dtypes_number df).cols.length ∨
        2 * num_filas (select_dtypes_number df).cols.length
        = (select_dtypes_number df).cols.length + 1 := by
      unfold num_filas; omega
    have hcellseq : fig.cells = (List.range
        (2 * num_filas (select_dtypes_number df).cols.length)).map
        (fun j => if j < (select_dtypes_number df).cols.length then
          applyAct (if ((select_dtypes_number df).cols.getD j default).name = vr
            then CellAct.del
            else CellAct.draw
              (Chart.scatter ((select_dtypes_number df).cols.getD j default).name vr)
              ((select_dtypes_number df).cols.getD j default).name) Cell.empty
          else { Cell.empty with removed := true }) := by
      apply List.ext_getElem?
      intro j
      rw [List.getElem?_map]
      by_cases hj : j < 2 * num_filas (select_dtypes_number df).cols.length
      · rw [List.getElem?_range hj]
        simp only [Option.map_some']
        by_cases hjn : j < (select_dtypes_number df).cols.length
        · rw [hcell j hjn, if_pos hjn]
        · have hodd : (select_dtypes_number df).cols.length % 2 = 1 := by
            rcases hparity with h2 | h2 <;> omega
          have hjeq : j = (select_dtypes_number df).cols.length := by
            rcases hparity with h2 | h2 <;> omega
          rw [hjeq, hoddc hodd, if_neg (by omega)]
      · rw [List.getElem?_eq_none (l := fig.cells) (n := j) (by rw [hlen]; omega),
          List.getElem?_eq_none
            (l := List.range (2 * num_filas (select_dtypes_number df).cols.length))
            (n := j) (by rw [List.length_range]; omega)]
        rfl
    rw [hcellseq, List.countP_map]
    have hcongr : (List.range
        (2 * num_filas (select_dtypes_number df).cols.length)).countP
        (isScatterCell ∘ (fun j =>
          if j < (select_dtypes_number df).cols.length then
          applyAct (if ((select_dtypes_number df).cols.getD j default).name = vr
            then CellAct.del
            else CellAct.draw
              (Chart.scatter ((select_dtypes_number df).cols.getD j default).name vr)
              ((select_dtypes_number df).cols.getD j default).name) Cell.empty
          else { Cell.empty with removed := true }))
        = (List.range
        (2 * num_filas (select_dtypes_number df).cols.length)).countP
        (fun j => decide (j < (select_dtypes_number df).cols.length) && !decide (j = k)) := by
      apply List.countP_congr
      intro j _
      simp only [Function.comp_apply, Bool.and_eq_true, decide_eq_true_eq,
        Bool.not_eq_true', decide_eq_false_iff_not]
      by_cases hjn : j < (select_dtypes_number df).cols.length
      · rw [if_pos hjn]
        by_cases hjk : j = k
        · subst hjk
          rw [if_pos (by rw [hgetDk]; exact hkvr)]
          simp [applyAct, isScatterCell, Cell.empty]
        · rw [if_neg (huniq j hjn hjk)]
          simp [applyAct, isScatterCell, Cell.empty]
          exact ⟨hjn, hjk⟩
      · rw [if_neg hjn]
        simp [isScatterCell, Cell.empty]
        omega
    rw [hcongr]
    rcases hparity with h2 | h2
    · rw [h2]
      have : (List.range (select_dtypes_number df).cols.length).countP
          (fun j => decide (j < (select_dtypes_number df).cols.length) && !decide (j = k))
          = (List.range (select_dtypes_number df).cols.length).countP
          (fun j => !decide (j = k)) := by
        apply List.countP_congr
        intro j hj
        have := List.mem_range.mp hj
        simp [this]
      rw [this, countP_ne_range _ _ hklt]
    · rw [h2, List.range_succ, List.countP_append]
      have hlast : ([(select_dtypes_number df).cols.length].countP
          (fun j => decide (j < (select_dtypes_number df).cols.length) && !decide (j = k))) = 0 := by
        simp
      rw [hlast]
      have : (List.range (select_dtypes_number df).cols.length).countP
          (fun j => decide (j < (select_dtypes_number df).cols.length) && !decide (j = k))
          = (List.range (select_dtypes_number df).cols.length).countP
          (fun j => !decide (j = k)) := by
        apply List.countP_congr
        intro j hj
        have := List.mem_range.mp hj
        simp [this]
      rw [this, countP_ne_range _ _ hklt]
      omega

/-- Witness for C3 at `dfXY` with response variable `y` (index 1). -/
theorem relacion_vr_numericas_self_cell_witness :
    ∃ fig, relacion_vr_numericas dfXY "y" = Except.ok fig ∧
      (fig.cells.getD 1 Cell.empty).removed = true ∧
      (fig.cells.getD 1 Cell.empty).chart = none ∧
      (∀ i ci, (select_dtypes_number dfXY).cols[i]? = some ci → i ≠ 1 →
        (fig.cells.getD i Cell.empty).chart = some (Chart.scatter ci.name "y")) ∧
      fig.cells.countP isScatterCell = (select_dtypes_number dfXY).cols.length - 1 :=
  relacion_vr_numericas_self_cell dfXY "y" (by decide) 1
    ⟨"y", Dtype.num, [Value.num 3, Value.num 4]⟩ (by decide) (by decide)

/-- The bar order recorded in a count-bar cell. -/
def chartOrder (c : Cell) : List Value :=
  match c.chart with
  | some (Chart.countBar _ ord) => ord
  | _ => []

/-- Example frame with one categorical column whose two categories are tied
in frequency. -/
def dfAB : DataFrame := ⟨[⟨"c", Dtype.obj, [Value.str "a", Value.str "b"]⟩]⟩

/-- C5 counterexample: on a column with two categories of equal count the
bars are drawn in the order `a`, `b`, whose frequencies (1, 1) are not
strictly descending. -/
theorem plot_categoricas_strict_order_cex :
    ((plot_categoricas dfAB).map (fun fig => chartOrder (fig.cells.getD 0 Cell.empty))
      = Except.ok [Value.str "a", Value.str "b"]) ∧
    ¬ List.Chain' (fun u v =>
        countVal [Value.str "a", Value.str "b"] v
          < countVal [Value.str "a", Value.str "b"] u)
      [Value.str "a", Value.str "b"] := by
  refine ⟨by decide, ?_⟩
  rw [List.chain'_pair]
  decide

theorem insertDesc_head {α β : Type} [LinearOrder β] (key : α → β) (v : α)
    (l : List α) (x : α) (hx : (insertDesc key v l).head? = some x) :
    x = v ∨ l.head? = some x := by
  cases l with
  | nil =>
    simp [insertDesc] at hx
    exact Or.inl hx.symm
  | cons w rest =>
    by_cases hc : key w ≤ key v
    · simp only [insertDesc, if_pos hc, List.head?_cons, Option.some.injEq] at hx
      exact Or.inl hx.symm
    · simp only [insertDesc, if_neg hc, List.head?_cons, Option.some.injEq] at hx
      exact Or.inr (by rw [List.head?_cons, hx])

theorem insertDesc_chain' {α β : Type} [LinearOrder β] (key : α → β) (v : α) :
    ∀ l : List α, List.Chain' (fun a b => key b ≤ key a) l →
      List.Chain' (fun a b => key b ≤ key a) (insertDesc key v l) := by
  intro l
  induction l with
  | nil =>
    intro _
    simp [insertDesc]
  | cons w rest ih =>
    intro h
    by_cases hc : key w ≤ key v
    · simp only [insertDesc, if_pos hc]
      exact List.chain'_cons.mpr ⟨hc, h⟩
    · simp only [insertDesc, if_neg hc]
      refine List.chain'_cons'.mpr ⟨?_, ih h.tail⟩
      intro y hy
      rcases insertDesc_head key v rest y hy with rfl | hy'
      · exact le_of_not_le hc
      · exact (List.chain'_cons'.mp h).1 y hy'

theorem sortDesc_chain' {α β : Type} [LinearOrder β] (key : α → β) :
    ∀ l : List α, List.Chain' (fun a b => key b ≤ key a) (sortDesc key l) := by
  intro l
  induction l with
  | nil => simp [sortDesc]
  | cons v rest ih => exact insertDesc_chain' key v _ ih

/-- C5 (amended): for every categorical column, the count bars are drawn in
the order `df[col].value_counts().index`, whose frequencies are descending in
the weak sense: non-increasing, with ties (equal counts) allowed — the order
is not strictly descending in general. -/
theorem plot_categoricas_order_desc (df : DataFrame) (i : ℕ) (ci : Column)
    (hi : (separar_df df).2.cols[i]? = some ci) :
    ∃ fig, plot_categoricas df = Except.ok fig ∧
      (fig.cells.getD i Cell.empty).chart =
        some (Chart.countBar ci.name (value_counts_index ci.values)) ∧
      List.Chain' (fun u v => countVal ci.values v ≤ countVal ci.values u)
        (value_counts_index ci.values) := by
  have hilt : i < (separar_df df).2.cols.length := by
    by_contra hcontra
    rw [List.getElem?_eq_none (by omega)] at hi
    cases hi
  have h1 : 1 ≤ (separar_df df).2.cols.length := by omega
  obtain ⟨fig, hfig, hnr, hlen, hcell, hoddc, -⟩ := renderGrid_ok_spec
    (fun _ c => CellAct.draw (Chart.countBar c.name (value_counts_index c.values)) c.name)
    (separar_df df).2.cols h1
  have hok : plot_categoricas df = Except.ok fig := hfig
  refine ⟨fig, hok, ?_, ?_⟩
  · rw [List.getD_eq_getElem?_getD, hcell i hilt]
    simp [applyAct, hi]
  · exact sortDesc_chain' _ _

/-- Witness for the amended C5 at `dfMixed` (column `city`, index 0). -/
theorem plot_categoricas_order_desc_witness :
    ∃ fig, plot_categoricas dfMixed = Except.ok fig ∧
      (fig.cells.getD 0 Cell.empty).chart =
        some (Chart.countBar "city"
          (value_counts_index [Value.str "A", Value.str "B"])) ∧
      List.Chain' (fun u v => countVal [Value.str "A", Value.str "B"] v
          ≤ countVal [Value.str "A", Value.str "B"] u)
        (value_counts_index [Value.str "A", Value.str "B"]) :=
  plot_categoricas_order_desc dfMixed 0
    ⟨"city", Dtype.obj, [Value.str "A", Value.str "B"]⟩ (by decide)

/-- The numeric data of a column (used by `df.corr`). -/
def Column.numData (c : Column) : List ℚ := c.values.filterMap Value.asNum

/-- Deviations from the mean. -/
def demean (l : List ℚ) : List ℚ := l.map (fun x => x - meanQ l)

/-- Sum of products of paired deviations — the covariance up to the `n - 1`
normalization, which cancels in the correlation quotient. -/
def covQ (x y : List ℚ) : ℚ :=
  (((demean x).zip (demean y)).map (fun p => p.1 * p.2)).sum

/-- Pearson correlation coefficient of two columns of data, as computed by
`df.corr` (a ratio of real numbers; the square roots force the reals). -/
noncomputable def pearson (x y : List ℚ) : ℝ :=
  ((covQ x y : ℚ) : ℝ) /
    (Real.sqrt ((covQ x x : ℚ) : ℝ) * Real.sqrt ((covQ y y : ℚ) : ℝ))

/-- The seaborn heatmap call, with the data matrix, the `annot` flag, the
`mask` matrix and the fixed color range `vmin`/`vmax`. -/
structure Heatmap where
  size : ℕ
  data : ℕ → ℕ → ℝ
  annot : Bool
  mask : ℕ → ℕ → Bool
  vmin : ℝ
  vmax : ℝ

/-- Embedding of `plot_matriz_correlacion` (src/soporte.py:164-179):
`df.corr(numeric_only = True)` is the pairwise Pearson correlation matrix of
the numeric columns; `mascara = np.triu(np.ones_like(...))` masks the upper
triangle including the diagonal; `annot = True`, `vmin = -1`, `vmax = 1`. -/
noncomputable def plot_matriz_correlacion (df : DataFrame) : Heatmap :=
  { size := (select_dtypes_number df).cols.length
    data := fun i j =>
      pearson ((select_dtypes_number df).cols.getD i default).numData
        ((select_dtypes_number df).cols.getD j default).numData
    annot := true
    mask := fun i j => decide (i ≤ j)
    vmin := -1
    vmax := 1 }

/-- A heatmap cell carries a visible numeric annotation iff annotations are
on and the cell is not masked. -/
def Heatmap.visibleAnnot (h : Heatmap) (i j : ℕ) : Prop :=
  h.annot = true ∧ h.mask i j = false

theorem zip_mul_sum_comm (a : List ℚ) :
    ∀ b : List ℚ, ((a.zip b).map (fun p => p.1 * p.2)).sum
      = ((b.zip a).map (fun p => p.1 * p.2)).sum := by
  induction a with
  | nil => intro b; cases b <;> simp
  | cons x xs ih =>
    intro b
    cases b with
    | nil => simp
    | cons y ys =>
      simp only [List.zip_cons_cons, List.map_cons, List.sum_cons, ih ys]
      ring

theorem covQ_comm (x y : List ℚ) : covQ x y = covQ y x :=
  zip_mul_sum_comm (demean x) (demean y)

theorem pearson_comm (x y : List ℚ) : pearson x y = pearson y x := by
  unfold pearson
  rw [covQ_comm x y, mul_comm]

/-- C4: the correlation matrix is symmetric before masking; the mask hides
exactly the diagonal and upper triangle, so a cell carries a visible numeric
annotation iff it is strictly below the diagonal; the color scale range is
fixed to `[-1, 1]`. -/
theorem plot_matriz_correlacion_spec (df : DataFrame) (i j : ℕ)
    (hi : i < (select_dtypes_number df).cols.length)
    (hj : j < (select_dtypes_number df).cols.length) :
    (plot_matriz_correlacion df).data i j = (plot_matriz_correlacion df).data j i ∧
    ((plot_matriz_correlacion df).visibleAnnot i j ↔ j < i) ∧
    ((plot_matriz_correlacion df).mask i j = true ↔ i ≤ j) ∧
    (plot_matriz_correlacion df).vmin = -1 ∧
    (plot_matriz_correlacion df).vmax = 1 := by
  refine ⟨pearson_comm _ _, ?_, ?_, rfl, rfl⟩
  · unfold Heatmap.visibleAnnot plot_matriz_correlacion
    simp [Nat.lt_iff_add_one_le]
  · unfold plot_matriz_correlacion
    simp

/-- Witness for C4 at `dfXY` (cell (1, 0): strictly lower triangle). -/
theorem plot_matriz_correlacion_spec_witness :
    (plot_matriz_correlacion dfXY).data 1 0 = (plot_matriz_correlacion dfXY).data 0 1 ∧
    ((plot_matriz_correlacion dfXY).visibleAnnot 1 0 ↔ 0 < 1) ∧
    ((plot_matriz_correlacion dfXY).mask 1 0 = true ↔ 1 ≤ 0) ∧
    (plot_matriz_correlacion dfXY).vmin = -1 ∧
    (plot_matriz_correlacion dfXY).vmax = 1 :=
  plot_matriz_correlacion_spec dfXY 1 0 (by decide) (by decide)

/-- C7: a response-variable name absent from the table makes
`relacion_vr_categoricas` fail with the column-not-found error on its first
loop iteration (`df.groupby(col)[vr]` raises `KeyError`); the error
propagates to the caller — nothing catches or swallows it. -/
theorem relacion_vr_categoricas_keyNotFound (df : DataFrame) (vr : String)
    (h1 : 1 ≤ (select_dtypes_object df).cols.length)
    (hvr : vr ∉ df.names) :
    relacion_vr_categoricas df vr = Except.error PlotError.keyNotFound := by
  have hfind : find_col df vr = none := by
    unfold find_col
    rw [List.find?_eq_none]
    intro c hc
    simp only [decide_eq_true_eq]
    intro hceq
    exact hvr (hceq ▸ List.mem_map_of_mem Column.name hc)
  obtain ⟨c, rest, hcols⟩ : ∃ c rest, (select_dtypes_object df).cols = c :: rest := by
    cases hcl : (select_dtypes_object df).cols with
    | nil => rw [hcl] at h1; simp at h1
    | cons c rest => exact ⟨c, rest, rfl⟩
  have hgm : groupby_mean df c.name vr = Except.error PlotError.keyNotFound := by
    unfold groupby_mean
    rw [hfind]
    cases find_col df c.name <;> rfl
  have hnf : num_filas (rest.length + 1) ≠ 0 := by
    unfold num_filas
    omega
  show renderGrid (select_dtypes_object df).cols
    (fun _ c =>
      match groupby_mean df c.name vr with
      | Except.error e => Except.error e
      | Except.ok g =>
          Except.ok (CellAct.draw (Chart.barMeans c.name vr g) c.name))
    = Except.error PlotError.keyNotFound
  rw [hcols]
  simp [renderGrid, renderLoop, hnf, hgm]

/-- Witness for C7 at `dfMixed` with the absent column name `zz`. -/
theorem relacion_vr_categoricas_keyNotFound_witness :
    relacion_vr_categoricas dfMixed "zz" = Except.error PlotError.keyNotFound :=
  relacion_vr_categoricas_keyNotFound dfMixed "zz" (by decide) (by decide)

/-!
State-passing embedding for the frame claims: each renderer is run against a
world holding the caller's table and the figures rendered so far.  In the
source, every pandas call used (`select_dtypes`, `value_counts`, `groupby`,
`mean`, `sort_values`, `reset_index`, `corr`) builds new objects and leaves
its input frame untouched, and no statement assigns into `df`; the embedding
therefore threads the table through unchanged, and the theorem below records
that this is the only observable frame effect.
-/

structure World where
  df : DataFrame
  figs : List Figure
deriving DecidableEq

/-- Calling the classifier: a pure function of the table (no world change). -/
def separar_df_run (w : World) : World × (DataFrame × DataFrame) :=
  (w, separar_df w.df)

def plot_numericas_run (w : World) (nbins : ℕ) : Except PlotError World :=
  match plot_numericas w.df nbins with
  | Except.error e => Except.error e
  | Except.ok fig => Except.ok ⟨w.df, w.figs ++ [fig]⟩

def plot_categoricas_run (w : World) : Except PlotError World :=
  match plot_categoricas w.df with
  | Except.error e => Except.error e
  | Except.ok fig => Except.ok ⟨w.df, w.figs ++ [fig]⟩

def relacion_vr_categoricas_run (w : World) (vr : String) : Except PlotError World :=
  match relacion_vr_categoricas w.df vr with
  | Except.error e => Except.error e
  | Except.ok fig => Except.ok ⟨w.df, w.figs ++ [fig]⟩

def relacion_vr_numericas_run (w : World) (vr : String) : Except PlotError World :=
  match relacion_vr_numericas w.df vr with
  | Except.error e => Except.error e
  | Except.ok fig => Except.ok ⟨w.df, w.figs ++ [fig]⟩

def detectar_outliers_run (w : World) (vr : String) : Except PlotError World :=
  match detectar_outliers w.df vr with
  | Except.error e => Except.error e
  | Except.ok fig => Except.ok ⟨w.df, w.figs ++ [fig]⟩

/-- The heatmap renderer draws on its own fresh pyplot figure; its heatmap is
the produced artifact and the world is unchanged. -/
noncomputable def plot_matriz_correlacion_run (w : World) : World × Heatmap :=
  (w, plot_matriz_correlacion w.df)

/-- C9: the classifier is a pure function of the table and all six renderers
leave the caller's table unchanged — a successful run returns the same table
and appends exactly one rendered figure (the heatmap renderer returns its
heatmap alongside the untouched world). -/
theorem no_table_mutation :
    (∀ w : World, (separar_df_run w).1 = w ∧ (separar_df_run w).2 = separar_df w.df) ∧
    (∀ w nbins w', plot_numericas_run w nbins = Except.ok w' →
      w'.df = w.df ∧ w'.figs.dropLast = w.figs ∧ w'.figs.length = w.figs.length + 1) ∧
    (∀ w w', plot_categoricas_run w = Except.ok w' →
      w'.df = w.df ∧ w'.figs.dropLast = w.figs ∧ w'.figs.length = w.figs.length + 1) ∧
    (∀ w vr w', relacion_vr_categoricas_run w vr = Except.ok w' →
      w'.df = w.df ∧ w'.figs.dropLast = w.figs ∧ w'.figs.length = w.figs.length + 1) ∧
    (∀ w vr w', relacion_vr_numericas_run w vr = Except.ok w' →
      w'.df = w.df ∧ w'.figs.dropLast = w.figs ∧ w'.figs.length = w.figs.length + 1) ∧
    (∀ w vr w', detectar_outliers_run w vr = Except.ok w' →
      w'.df = w.df ∧ w'.figs.dropLast = w.figs ∧ w'.figs.length = w.figs.length + 1) ∧
    (∀ w : World, (plot_matriz_correlacion_run w).1 = w ∧
      (plot_matriz_correlacion_run w).2 = plot_matriz_correlacion w.df) := by
  refine ⟨fun w => ⟨rfl, rfl⟩, ?_, ?_, ?_, ?_, ?_, fun w => ⟨rfl, rfl⟩⟩
  · intro w nbins w' h
    unfold plot_numericas_run at h
    cases hr : plot_numericas w.df nbins with
    | error e => rw [hr] at h; exact absurd h (by simp)
    | ok fig =>
      rw [hr] at h
      simp only [Except.ok.injEq] at h
      subst h
      exact ⟨rfl, List.dropLast_concat, by simp⟩
  · intro w w' h
    unfold plot_categoricas_run at h
    cases hr : plot_categoricas w.df with
    | error e => rw [hr] at h; exact absurd h (by simp)
    | ok fig =>
      rw [hr] at h
      simp only [Except.ok.injEq] at h
      subst h
      exact ⟨rfl, List.dropLast_concat, by simp⟩
  · intro w vr w' h
    unfold relacion_vr_categoricas_run at h
    cases hr : relacion_vr_categoricas w.df vr with
    | error e => rw [hr] at h; exact absurd h (by simp)
    | ok fig =>
      rw [hr] at h
      simp only [Except.ok.injEq] at h
      subst h
      exact ⟨rfl, List.dropLast_concat, by simp⟩
  · intro w vr w' h
    unfold relacion_vr_numericas_run at h
    cases hr : relacion_vr_numericas w.df vr with
    | error e => rw [hr] at h; exact absurd h (by simp)
    | ok fig =>
      rw [hr] at h
      simp only [Except.ok.injEq] at h
      subst h
      exact ⟨rfl, List.dropLast_concat, by simp⟩
  · intro w vr w' h
    unfold detectar_outliers_run at h
    cases hr : detectar_outliers w.df vr with
    | error e => rw [hr] at h; exact absurd h (by simp)
    | ok fig =>
      rw [hr] at h
      simp only [Except.ok.injEq] at h
      subst h
      exact ⟨rfl, List.dropLast_concat, by simp⟩

/-- The world before and after rendering histograms for `dfMixed`. -/
def wMix : World := ⟨dfMixed, []⟩

def figHistAge : Figure :=
  ⟨1, [⟨some (Chart.hist "age" 20), some "age", false⟩, ⟨none, none, true⟩]⟩

def wMix' : World := ⟨dfMixed, [figHistAge]⟩

/-- Witness for C9: the classifier and the histogram renderer at `wMix`. -/
theorem no_table_mutation_witness :
    ((separar_df_run wMix).1 = wMix ∧ (separar_df_run wMix).2 = separar_df wMix.df) ∧
    (wMix'.df = wMix.df ∧ wMix'.figs.dropLast = wMix.figs ∧
      wMix'.figs.length = wMix.figs.length + 1) :=
  ⟨no_table_mutation.1 wMix,
   no_table_mutation.2.1 wMix 20 wMix' (by decide)⟩

/-- C10: the `vr` parameter of `detectar_outliers` is never read by the body:
for every table, any two response-variable arguments yield exactly the same
rendered figure (same boxplots, titles, palette colors, and grid), whether
observed directly or through the state-passing run. -/
theorem detectar_outliers_vr_unused :
    (∀ df vr₁ vr₂, detectar_outliers df vr₁ = detectar_outliers df vr₂) ∧
    (∀ w vr₁ vr₂, detectar_outliers_run w vr₁ = detectar_outliers_run w vr₂) :=
  ⟨fun _ _ _ => rfl, fun _ _ _ => rfl⟩
